import Mathlib

/-!
Shallow embedding of the Survive trading agent's position/risk control core
(position manager, risk manager, survival manager, price stream reconnect
policy), together with theorems settling the specification claims.

Numbers are modelled as rationals; timestamps are rationals counting
milliseconds; nullable fields are `Option`; JavaScript truthiness of
nullable numeric fields is modelled explicitly.
-/

namespace Survive

/-! ### Position manager (src/bot/src/core/positionManager.ts) -/

inductive PositionStatus
  | active
  | trailing
  | exiting
deriving DecidableEq

structure PositionConfig where
  stopLossPercent : ℚ
  trailingStopPercent : ℚ
  trailingActivationPercent : ℚ
  takeProfitPercent : ℚ
  partialTakePercent : ℚ
  partialTakeSize : ℚ
  maxHoldTimeHours : ℚ
  minHoldTimeMinutes : ℚ
  exitOnVolumeDropPercent : ℚ
deriving DecidableEq

/-- The default `PositionConfig` built in the `PositionManager` constructor
(stop loss 20, trailing 15, activation 30, take profit 100, partial take at
50 selling 50, max hold 24h, min hold 5min, volume drop 70). -/
def defaultPositionConfig : PositionConfig where
  stopLossPercent := 20
  trailingStopPercent := 15
  trailingActivationPercent := 30
  takeProfitPercent := 100
  partialTakePercent := 50
  partialTakeSize := 50
  maxHoldTimeHours := 24
  minHoldTimeMinutes := 5
  exitOnVolumeDropPercent := 70

/-- `EnhancedPosition` from positionManager.ts; string identifiers and the
`lastChecked` bookkeeping date are omitted as no claim depends on them.
`entryTimestamp` is in milliseconds. -/
structure EnhancedPosition where
  entryPrice : ℚ
  amount : ℚ
  entrySolValue : ℚ
  entryTimestamp : ℚ
  highestPrice : ℚ
  lowestPrice : ℚ
  trailingStopPrice : Option ℚ
  partialTakeDone : Bool
  checkCount : ℕ
  status : PositionStatus
deriving DecidableEq

inductive SignalType
  | hold
  | partialSell
  | fullSell
deriving DecidableEq

inductive Urgency
  | low
  | medium
  | high
  | critical
deriving DecidableEq

/-- Tag identifying which branch of `evaluatePosition` produced the signal;
each constructor corresponds to one of the distinct reason strings. -/
inductive SignalReason
  | stopLossHit
  | trailingStopHit
  | takeProfitHit
  | partialTakeProfit
  | maxHoldExceeded
  | minHoldNotMet
  | holding
deriving DecidableEq

structure PositionSignal where
  type : SignalType
  reason : SignalReason
  urgency : Urgency
  sellPercent : Option ℚ
deriving DecidableEq

/-- JavaScript truthiness of the nullable numeric `trailingStopPrice` field:
`null` and `0` are falsy. -/
def tspTruthy : Option ℚ → Bool
  | none => false
  | some t => decide (t ≠ 0)

/-- The guard `position.trailingStopPrice && currentPrice <= position.trailingStopPrice`. -/
def trailingStopHitCheck (tsp : Option ℚ) (price : ℚ) : Bool :=
  match tsp with
  | none => false
  | some t => decide (t ≠ 0) && decide (price ≤ t)

/-- `PositionManager.evaluatePosition`: returns the emitted signal together
with the (possibly mutated) position — the partial-take branch sets
`partialTakeDone`, the default branch refreshes `status`. `now` is the
current time in milliseconds. -/
def evaluatePosition (cfg : PositionConfig) (pos : EnhancedPosition) (currentPrice now : ℚ) :
    PositionSignal × EnhancedPosition :=
  let pnlPercent := (currentPrice - pos.entryPrice) / pos.entryPrice * 100
  let holdTimeMs := now - pos.entryTimestamp
  let holdTimeHours := holdTimeMs / (1000 * 60 * 60)
  let holdTimeMinutes := holdTimeMs / (1000 * 60)
  if pnlPercent ≤ -cfg.stopLossPercent then
    (⟨.fullSell, .stopLossHit, .critical, some 100⟩, pos)
  else if trailingStopHitCheck pos.trailingStopPrice currentPrice then
    (⟨.fullSell, .trailingStopHit, .critical, some 100⟩, pos)
  else if cfg.takeProfitPercent ≤ pnlPercent then
    (⟨.fullSell, .takeProfitHit, .high, some 100⟩, pos)
  else if !pos.partialTakeDone && decide (cfg.partialTakePercent ≤ pnlPercent) then
    (⟨.partialSell, .partialTakeProfit, .medium, some cfg.partialTakeSize⟩,
      { pos with partialTakeDone := true })
  else if cfg.maxHoldTimeHours ≤ holdTimeHours then
    (⟨.fullSell, .maxHoldExceeded, .medium, some 100⟩, pos)
  else if holdTimeMinutes < cfg.minHoldTimeMinutes then
    (⟨.hold, .minHoldNotMet, .low, none⟩, pos)
  else
    (⟨.hold, .holding, .low, none⟩,
      { pos with status := if tspTruthy pos.trailingStopPrice then .trailing else .active })

/-- `PositionManager.updateTrailingStop`: once unrealized gain reaches the
activation threshold, the candidate stop `highestPrice * (1 - pct/100)`
replaces the current stop only when the current stop is unset (falsy) or the
candidate is strictly higher. -/
def updateTrailingStop (cfg : PositionConfig) (pos : EnhancedPosition) (currentPrice : ℚ) :
    EnhancedPosition :=
  let pnlPercent := (currentPrice - pos.entryPrice) / pos.entryPrice * 100
  if cfg.trailingActivationPercent ≤ pnlPercent then
    let newTrailingStop := pos.highestPrice * (1 - cfg.trailingStopPercent / 100)
    if !tspTruthy pos.trailingStopPrice || decide (pos.trailingStopPrice.getD 0 < newTrailingStop) then
      { pos with trailingStopPrice := some newTrailingStop, status := .trailing }
    else pos
  else pos

/-- One iteration of the `PositionManager.checkAllPositions` loop for a single
position and one observed price: evaluate, bump `checkCount`, update the
high/low water marks, then recompute the trailing stop. -/
def checkPositionStep (cfg : PositionConfig) (pos : EnhancedPosition) (price now : ℚ) :
    PositionSignal × EnhancedPosition :=
  let res := evaluatePosition cfg pos price now
  let p1 := { res.2 with checkCount := res.2.checkCount + 1 }
  let p2 := if p1.highestPrice < price then { p1 with highestPrice := price } else p1
  let p3 := if price < p2.lowestPrice then { p2 with lowestPrice := price } else p2
  (res.1, updateTrailingStop cfg p3 price)

/-- Repeated `checkAllPositions` iterations on one position over a sequence of
(price, now) observations, collecting the emitted signals. -/
def runChecks (cfg : PositionConfig) (pos : EnhancedPosition) :
    List (ℚ × ℚ) → List PositionSignal × EnhancedPosition
  | [] => ([], pos)
  | ob :: rest =>
    let step := checkPositionStep cfg pos ob.1 ob.2
    let restRun := runChecks cfg step.2 rest
    (step.1 :: restRun.1, restRun.2)

/-- `PositionManager.tightenStops`: rescales the gap between each set trailing
stop and the entry price by `multiplier`. -/
def tightenStops (pos : EnhancedPosition) (multiplier : ℚ) : EnhancedPosition :=
  match pos.trailingStopPrice with
  | none => pos
  | some currentStop =>
    { pos with trailingStopPrice := some (pos.entryPrice + (currentStop - pos.entryPrice) * multiplier) }

theorem evaluatePosition_trailingStop (cfg : PositionConfig) (pos : EnhancedPosition)
    (price now : ℚ) :
    (evaluatePosition cfg pos price now).2.trailingStopPrice = pos.trailingStopPrice := by
  simp only [evaluatePosition]
  repeat first
  | rfl
  | split

theorem evaluatePosition_highestPrice (cfg : PositionConfig) (pos : EnhancedPosition)
    (price now : ℚ) :
    (evaluatePosition cfg pos price now).2.highestPrice = pos.highestPrice := by
  simp only [evaluatePosition]
  repeat first
  | rfl
  | split

theorem checkPositionStep_fst (cfg : PositionConfig) (pos : EnhancedPosition)
    (price now : ℚ) :
    (checkPositionStep cfg pos price now).1 = (evaluatePosition cfg pos price now).1 := rfl

theorem updateTrailingStop_highestPrice (cfg : PositionConfig) (q : EnhancedPosition)
    (price : ℚ) :
    (updateTrailingStop cfg q price).highestPrice = q.highestPrice := by
  simp only [updateTrailingStop]
  repeat first
  | rfl
  | split

theorem updateTrailingStop_partialFlag (cfg : PositionConfig) (q : EnhancedPosition)
    (price : ℚ) :
    (updateTrailingStop cfg q price).partialTakeDone = q.partialTakeDone := by
  simp only [updateTrailingStop]
  repeat first
  | rfl
  | split

/-- The second component of `checkPositionStep` is `updateTrailingStop` applied
to an intermediate position whose trailing stop is untouched and whose high
water mark has been refreshed with the observed price. -/
theorem checkPositionStep_decompose (cfg : PositionConfig) (pos : EnhancedPosition)
    (price now : ℚ) :
    ∃ q : EnhancedPosition,
      (checkPositionStep cfg pos price now).2 = updateTrailingStop cfg q price ∧
      q.trailingStopPrice = pos.trailingStopPrice ∧
      q.highestPrice = (if pos.highestPrice < price then price else pos.highestPrice) ∧
      q.partialTakeDone = (evaluatePosition cfg pos price now).2.partialTakeDone := by
  have hh := evaluatePosition_highestPrice cfg pos price now
  have ht := evaluatePosition_trailingStop cfg pos price now
  simp only [checkPositionStep, hh]
  refine ⟨_, rfl, ?_, ?_, ?_⟩
  · split <;> split <;> simp [ht]
  · split <;> split <;> simp_all [hh]
  · split <;> split <;> simp

/-- If the candidate stop update ever fires on a set (truthy) trailing stop,
the stop only ever moves up, and a changed stop equals the candidate
`highestPrice * (1 - trailingStopPercent/100)`. -/
theorem updateTrailingStop_ratchet (cfg : PositionConfig) (q : EnhancedPosition)
    (price t : ℚ) (hset : q.trailingStopPrice = some t) (ht : t ≠ 0) :
    ∃ u, (updateTrailingStop cfg q price).trailingStopPrice = some u ∧ t ≤ u ∧
      (u = t ∨ (t < u ∧ u = q.highestPrice * (1 - cfg.trailingStopPercent / 100))) := by
  simp only [updateTrailingStop, hset, tspTruthy, Option.getD]
  split
  · split
    · rename_i hguard
      simp only [ht, decide_not, Bool.or_eq_true, Bool.not_not, decide_eq_true_eq] at hguard
      rcases hguard with hguard | hguard
      · exact hguard.elim
      · exact ⟨_, rfl, le_of_lt hguard, Or.inr ⟨hguard, rfl⟩⟩
    · exact ⟨t, hset, le_refl t, Or.inl rfl⟩
  · exact ⟨t, hset, le_refl t, Or.inl rfl⟩

/-- Claim C1: for every open position whose trailing stop is already set (non-null,
and nonzero as the code treats `0` as unset), one `checkAllPositions`
iteration — evaluation, high/low refresh, then `updateTrailingStop` — never
lowers the trailing stop: it is either left unchanged or replaced by the
strictly higher candidate `highestPrice * (1 - trailingStopPercent/100)`. -/
theorem trailingStop_monotonic_ratchet (cfg : PositionConfig) (pos : EnhancedPosition)
    (price now t : ℚ) (hset : pos.trailingStopPrice = some t) (ht : t ≠ 0) :
    ∃ u, (checkPositionStep cfg pos price now).2.trailingStopPrice = some u ∧ t ≤ u ∧
      (u = t ∨ (t < u ∧
        u = (checkPositionStep cfg pos price now).2.highestPrice
              * (1 - cfg.trailingStopPercent / 100))) := by
  obtain ⟨q, hq, hqt, _, _⟩ := checkPositionStep_decompose cfg pos price now
  rw [hq, updateTrailingStop_highestPrice]
  exact updateTrailingStop_ratchet cfg q price t (hqt.trans hset) ht

def ratchetWitnessPos : EnhancedPosition :=
  { entryPrice := 1, amount := 1, entrySolValue := 1, entryTimestamp := 0,
    highestPrice := 7/5, lowestPrice := 1, trailingStopPrice := some (119/100),
    partialTakeDone := true, checkCount := 3, status := .trailing }

theorem trailingStop_monotonic_ratchet_witness :
    ∃ u, (checkPositionStep defaultPositionConfig ratchetWitnessPos (8/5) 60000).2.trailingStopPrice
           = some u ∧ (119/100 : ℚ) ≤ u ∧
      (u = 119/100 ∨ ((119/100 : ℚ) < u ∧
        u = (checkPositionStep defaultPositionConfig ratchetWitnessPos (8/5) 60000).2.highestPrice
              * (1 - defaultPositionConfig.trailingStopPercent / 100))) :=
  trailingStop_monotonic_ratchet defaultPositionConfig ratchetWitnessPos (8/5) 60000 (119/100)
    rfl (by norm_num)

/-- Claim C2: with entry price 1.00, stop-loss 20% and no trailing stop set, a price
of 0.79 yields a full-sell signal of critical urgency from the hard stop-loss
branch at any time (it is checked before every other rule, the min-hold rule
included), while a price of 0.81, within the max hold time, yields hold. -/
theorem hardStopLoss_scenario (pos : EnhancedPosition) (now : ℚ)
    (hentry : pos.entryPrice = 1) (htsp : pos.trailingStopPrice = none) :
    (evaluatePosition defaultPositionConfig pos (79/100) now).1 =
      ⟨.fullSell, .stopLossHit, .critical, some 100⟩ ∧
    ((now - pos.entryTimestamp) / (1000 * 60 * 60) < 24 →
      (evaluatePosition defaultPositionConfig pos (81/100) now).1.type = .hold) := by
  constructor
  · simp only [evaluatePosition, hentry, defaultPositionConfig]
    norm_num
  · intro hhold
    simp only [evaluatePosition, hentry, htsp, trailingStopHitCheck, defaultPositionConfig]
    norm_num
    rw [if_neg (by linarith)]
    split <;> rfl

def c2pos : EnhancedPosition :=
  { entryPrice := 1, amount := 100, entrySolValue := 1, entryTimestamp := 0,
    highestPrice := 1, lowestPrice := 1, trailingStopPrice := none,
    partialTakeDone := false, checkCount := 0, status := .active }

theorem hardStopLoss_scenario_witness :
    (evaluatePosition defaultPositionConfig c2pos (79/100) 60000).1 =
      ⟨.fullSell, .stopLossHit, .critical, some 100⟩ ∧
    (evaluatePosition defaultPositionConfig c2pos (81/100) 60000).1.type = .hold :=
  ⟨(hardStopLoss_scenario c2pos 60000 rfl rfl).1,
   (hardStopLoss_scenario c2pos 60000 rfl rfl).2 (by norm_num [c2pos])⟩

def countPartialSells (l : List PositionSignal) : ℕ :=
  l.countP (fun s => decide (s.type = SignalType.partialSell))

theorem evaluatePosition_partialFlag (cfg : PositionConfig) (pos : EnhancedPosition)
    (price now : ℚ) :
    (evaluatePosition cfg pos price now).2.partialTakeDone =
      (pos.partialTakeDone
        || decide ((evaluatePosition cfg pos price now).1.type = SignalType.partialSell)) := by
  simp only [evaluatePosition]
  repeat first
  | (rw [decide_eq_false]
     · simp
     · simp)
  | simp
  | split

theorem evaluatePosition_notPartial_of_done (cfg : PositionConfig) (pos : EnhancedPosition)
    (price now : ℚ) (h : pos.partialTakeDone = true) :
    (evaluatePosition cfg pos price now).1.type ≠ SignalType.partialSell := by
  simp only [evaluatePosition, h]
  repeat first
  | simp
  | split

theorem checkPositionStep_partialFlag (cfg : PositionConfig) (pos : EnhancedPosition)
    (price now : ℚ) :
    (checkPositionStep cfg pos price now).2.partialTakeDone =
      (evaluatePosition cfg pos price now).2.partialTakeDone := by
  obtain ⟨q, hq, _, _, hqp⟩ := checkPositionStep_decompose cfg pos price now
  rw [hq, updateTrailingStop_partialFlag, hqp]

/-- Per-run invariant behind C3: a position whose flag is already set emits no
further partial-sell signal and keeps the flag; from any start the run emits
at most one partial-sell signal. -/
theorem runChecks_partial_invariant (cfg : PositionConfig) (pos : EnhancedPosition)
    (obs : List (ℚ × ℚ)) :
    (pos.partialTakeDone = true →
      countPartialSells (runChecks cfg pos obs).1 = 0 ∧
      (runChecks cfg pos obs).2.partialTakeDone = true) ∧
    countPartialSells (runChecks cfg pos obs).1 ≤ 1 := by
  induction obs generalizing pos with
  | nil => simp [runChecks, countPartialSells]
  | cons ob rest ih =>
    simp only [runChecks]
    constructor
    · intro hdone
      have hnp : (checkPositionStep cfg pos ob.1 ob.2).1.type ≠ SignalType.partialSell := by
        rw [checkPositionStep_fst]
        exact evaluatePosition_notPartial_of_done cfg pos ob.1 ob.2 hdone
      have hflag : (checkPositionStep cfg pos ob.1 ob.2).2.partialTakeDone = true := by
        rw [checkPositionStep_partialFlag, evaluatePosition_partialFlag, hdone, Bool.true_or]
      obtain ⟨h1, h2⟩ := (ih (checkPositionStep cfg pos ob.1 ob.2).2).1 hflag
      refine ⟨?_, h2⟩
      simp only [countPartialSells, List.countP_cons] at h1 ⊢
      simp [hnp, h1]
    · by_cases hdone : pos.partialTakeDone = true
      · have h1 := ((ih (checkPositionStep cfg pos ob.1 ob.2).2).1 ?_).1
        · have hnp : (checkPositionStep cfg pos ob.1 ob.2).1.type ≠ SignalType.partialSell := by
            rw [checkPositionStep_fst]
            exact evaluatePosition_notPartial_of_done cfg pos ob.1 ob.2 hdone
          simp only [countPartialSells, List.countP_cons] at h1 ⊢
          simp [hnp, h1]
        · rw [checkPositionStep_partialFlag, evaluatePosition_partialFlag, hdone, Bool.true_or]
      · by_cases hsig : (checkPositionStep cfg pos ob.1 ob.2).1.type = SignalType.partialSell
        · have hflag : (checkPositionStep cfg pos ob.1 ob.2).2.partialTakeDone = true := by
            rw [checkPositionStep_partialFlag, evaluatePosition_partialFlag,
              ← checkPositionStep_fst, hsig]
            simp
          have h0 := ((ih (checkPositionStep cfg pos ob.1 ob.2).2).1 hflag).1
          simp only [countPartialSells, List.countP_cons] at h0 ⊢
          simp [hsig, h0]
        · have hr := (ih (checkPositionStep cfg pos ob.1 ob.2).2).2
          simp only [countPartialSells, List.countP_cons] at hr ⊢
          simp [hsig]
          omega

/-- Claim C3: over any sequence of evaluation steps, a position emits the
partial-sell signal at most once; once `partialTakeDone` is true it stays
true, no further partial-sell signal is emitted, and the flag is never
reset. -/
theorem partialTake_at_most_once (cfg : PositionConfig) (pos : EnhancedPosition)
    (obs : List (ℚ × ℚ)) :
    countPartialSells (runChecks cfg pos obs).1 ≤ 1 ∧
    (pos.partialTakeDone = true →
      countPartialSells (runChecks cfg pos obs).1 = 0 ∧
      (runChecks cfg pos obs).2.partialTakeDone = true) :=
  ⟨(runChecks_partial_invariant cfg pos obs).2, (runChecks_partial_invariant cfg pos obs).1⟩

def c3pos : EnhancedPosition :=
  { entryPrice := 1, amount := 100, entrySolValue := 1, entryTimestamp := 0,
    highestPrice := 8/5, lowestPrice := 1, trailingStopPrice := some (34/25),
    partialTakeDone := true, checkCount := 4, status := .trailing }

theorem partialTake_at_most_once_witness :
    countPartialSells (runChecks defaultPositionConfig c3pos [(8/5, 600000)]).1 ≤ 1 ∧
    (countPartialSells (runChecks defaultPositionConfig c3pos [(8/5, 600000)]).1 = 0 ∧
      (runChecks defaultPositionConfig c3pos [(8/5, 600000)]).2.partialTakeDone = true) :=
  ⟨(partialTake_at_most_once defaultPositionConfig c3pos [(8/5, 600000)]).1,
   (partialTake_at_most_once defaultPositionConfig c3pos [(8/5, 600000)]).2 rfl⟩

/-! ### Risk manager (src/bot/src/core/riskManager.ts) -/

structure RiskLimits where
  maxDailyLossSol : ℚ
  maxDrawdownPercent : ℚ
  maxExposurePercent : ℚ
  maxSinglePositionPercent : ℚ
  cooldownAfterLossesMs : ℚ
  maxConsecutiveLosses : ℕ
  minTimeBetweenTradesMs : ℚ
deriving DecidableEq

/-- The default limits built in the `RiskManager` constructor for a given
`initialCapitalSol`. -/
def defaultRiskLimits (initialCapitalSol : ℚ) : RiskLimits where
  maxDailyLossSol := initialCapitalSol * (1/10)
  maxDrawdownPercent := 25
  maxExposurePercent := 60
  maxSinglePositionPercent := 20
  cooldownAfterLossesMs := 30 * 60 * 1000
  maxConsecutiveLosses := 3
  minTimeBetweenTradesMs := 60 * 1000

structure RiskState where
  dailyPnL : ℚ
  peakBalance : ℚ
  currentDrawdown : ℚ
  consecutiveLosses : ℕ
  lastTradeTimestamp : Option ℚ
  cooldownUntil : Option ℚ
  totalExposure : ℚ
deriving DecidableEq

/-- The manager's mutable fields: the risk state plus the `dailyResetDate`
UTC date string it compares against. -/
structure RiskMgr where
  state : RiskState
  dailyResetDate : String
deriving DecidableEq

inductive RiskSeverity
  | ok
  | warning
  | blocked
deriving DecidableEq

/-- Tag identifying which of the distinct reason strings `canOpenPosition`
produced. -/
inductive RiskReason
  | inCooldown
  | dailyLossLimit
  | maxDrawdown
  | maxExposure
  | positionTooLarge
  | rateLimited
  | approachingDailyLoss
  | passed
deriving DecidableEq

structure RiskCheckResult where
  canTrade : Bool
  severity : RiskSeverity
  reason : RiskReason
deriving DecidableEq

def calculateDrawdown (s : RiskState) (currentBalance : ℚ) : ℚ :=
  if s.peakBalance = 0 then 0
  else (s.peakBalance - currentBalance) / s.peakBalance * 100

/-- `checkDailyReset`: zero the daily P&L when the observed UTC date string
differs from the stored one. -/
def checkDailyReset (m : RiskMgr) (today : String) : RiskMgr :=
  if today ≠ m.dailyResetDate then
    { state := { m.state with dailyPnL := 0 }, dailyResetDate := today }
  else m

/-- The guard `cooldownUntil && new Date() < cooldownUntil` (a Date object is
always truthy, so only null short-circuits). -/
def beforeDeadline (deadline : Option ℚ) (now : ℚ) : Bool :=
  match deadline with
  | none => false
  | some d => decide (now < d)

/-- The guard of the rate-limit branch: a last-trade timestamp exists and the
elapsed time is below the configured minimum spacing. -/
def rateLimitedCheck (lastTrade : Option ℚ) (now minMs : ℚ) : Bool :=
  match lastTrade with
  | none => false
  | some lt => decide (now - lt < minMs)

/-- `RiskManager.canOpenPosition`: the gates in source order. The stored
positions are passed as the list of their `entrySolValue`s. -/
def canOpenPosition (limits : RiskLimits) (m : RiskMgr) (solAmount currentBalance : ℚ)
    (positionValues : List ℚ) (now : ℚ) (today : String) : RiskCheckResult × RiskMgr :=
  let m := checkDailyReset m today
  let s := m.state
  if beforeDeadline s.cooldownUntil now then
    (⟨false, .blocked, .inCooldown⟩, m)
  else if s.dailyPnL ≤ -limits.maxDailyLossSol then
    (⟨false, .blocked, .dailyLossLimit⟩, m)
  else if limits.maxDrawdownPercent ≤ calculateDrawdown s currentBalance then
    (⟨false, .blocked, .maxDrawdown⟩, m)
  else if limits.maxExposurePercent ≤ positionValues.sum / currentBalance * 100 then
    (⟨false, .blocked, .maxExposure⟩, m)
  else if limits.maxSinglePositionPercent < solAmount / currentBalance * 100 then
    (⟨false, .blocked, .positionTooLarge⟩, m)
  else if rateLimitedCheck s.lastTradeTimestamp now limits.minTimeBetweenTradesMs then
    (⟨false, .warning, .rateLimited⟩, m)
  else if s.dailyPnL ≤ -limits.maxDailyLossSol * (7/10) then
    (⟨true, .warning, .approachingDailyLoss⟩, m)
  else
    (⟨true, .ok, .passed⟩, m)

inductive TradeType
  | buy
  | sell
  | buyback
deriving DecidableEq

/-- A recorded trade, reduced to the fields `recordTradeResult` reads;
`profit` is the optional realized profit of a sell. -/
structure Trade where
  type : TradeType
  profit : Option ℚ
deriving DecidableEq

/-- `RiskManager.recordTradeResult`. -/
def recordTradeResult (limits : RiskLimits) (m : RiskMgr) (trade : Trade) (now : ℚ)
    (today : String) : RiskMgr :=
  let m := checkDailyReset m today
  let s := m.state
  let s :=
    match trade.type, trade.profit with
    | TradeType.sell, some p =>
      let s := { s with dailyPnL := s.dailyPnL + p }
      if p < 0 then
        let s := { s with consecutiveLosses := s.consecutiveLosses + 1 }
        if limits.maxConsecutiveLosses ≤ s.consecutiveLosses then
          { s with cooldownUntil := some (now + limits.cooldownAfterLossesMs) }
        else s
      else { s with consecutiveLosses := 0 }
    | _, _ => s
  { m with state := { s with lastTradeTimestamp := some now } }

/-- `RiskManager.clearCooldown` (manual admin override). -/
def clearCooldown (m : RiskMgr) : RiskMgr :=
  { m with state := { m.state with cooldownUntil := none, consecutiveLosses := 0 } }

/-- `RiskManager.calculatePositionSize`. -/
def calculatePositionSize (limits : RiskLimits) (s : RiskState)
    (baseAmount currentBalance confidence : ℚ) : ℚ :=
  let size := baseAmount
  let confidenceMultiplier := 1/2 + confidence / 100 * (1/2)
  let size := size * confidenceMultiplier
  let size :=
    if 0 < s.consecutiveLosses then
      size * max (3/10) (1 - (s.consecutiveLosses : ℚ) * (2/10))
    else size
  let size :=
    if 10 < s.currentDrawdown then
      size * max (1/2) (1 - s.currentDrawdown / 100)
    else size
  let maxSize := currentBalance * (limits.maxSinglePositionPercent / 100)
  let size := min size maxSize
  max size (1/100)

theorem checkDailyReset_cooldown (m : RiskMgr) (today : String) :
    (checkDailyReset m today).state.cooldownUntil = m.state.cooldownUntil := by
  simp only [checkDailyReset]
  split <;> rfl

theorem checkDailyReset_losses (m : RiskMgr) (today : String) :
    (checkDailyReset m today).state.consecutiveLosses = m.state.consecutiveLosses := by
  simp only [checkDailyReset]
  split <;> rfl

theorem checkDailyReset_of_sameDay (m : RiskMgr) (today : String)
    (hd : today = m.dailyResetDate) : checkDailyReset m today = m := by
  simp [checkDailyReset, hd]

/-- A losing sell on an unchanged UTC day: P&L absorbs the loss, the streak
counter increments, and the cooldown is set exactly when the incremented
streak reaches the configured maximum. -/
theorem recordTradeResult_loss (limits : RiskLimits) (m : RiskMgr) (p now : ℚ)
    (today : String) (hp : p < 0) (hd : today = m.dailyResetDate) :
    recordTradeResult limits m ⟨.sell, some p⟩ now today =
      { state :=
          { dailyPnL := m.state.dailyPnL + p
            peakBalance := m.state.peakBalance
            currentDrawdown := m.state.currentDrawdown
            consecutiveLosses := m.state.consecutiveLosses + 1
            lastTradeTimestamp := some now
            cooldownUntil :=
              if limits.maxConsecutiveLosses ≤ m.state.consecutiveLosses + 1 then
                some (now + limits.cooldownAfterLossesMs)
              else m.state.cooldownUntil
            totalExposure := m.state.totalExposure }
        dailyResetDate := m.dailyResetDate } := by
  have hc : checkDailyReset m today = m := checkDailyReset_of_sameDay m today hd
  simp only [recordTradeResult, hc, if_pos hp]
  split <;> simp_all

/-- Claim C8: three consecutive losing sells with `maxConsecutiveLosses = 3` set
`cooldownUntil = now + cooldownDuration`; while the clock is before that
deadline `canOpenPosition` blocks with the cooldown reason; once the deadline
has elapsed it no longer blocks on cooldown; and `clearCooldown` nulls the
deadline manually. -/
theorem cooldown_lifecycle (limits : RiskLimits) (m0 : RiskMgr) (p1 p2 p3 t1 t2 t3 : ℚ)
    (today : String) (hmax : limits.maxConsecutiveLosses = 3)
    (hl0 : m0.state.consecutiveLosses = 0) (hd : today = m0.dailyResetDate)
    (hp1 : p1 < 0) (hp2 : p2 < 0) (hp3 : p3 < 0) :
    (recordTradeResult limits (recordTradeResult limits (recordTradeResult limits m0
        ⟨.sell, some p1⟩ t1 today) ⟨.sell, some p2⟩ t2 today)
        ⟨.sell, some p3⟩ t3 today).state.cooldownUntil =
      some (t3 + limits.cooldownAfterLossesMs) ∧
    (∀ a b : ℚ, ∀ pv : List ℚ, ∀ now : ℚ, ∀ td : String,
      now < t3 + limits.cooldownAfterLossesMs →
      (canOpenPosition limits (recordTradeResult limits (recordTradeResult limits
        (recordTradeResult limits m0 ⟨.sell, some p1⟩ t1 today) ⟨.sell, some p2⟩ t2 today)
        ⟨.sell, some p3⟩ t3 today) a b pv now td).1 = ⟨false, .blocked, .inCooldown⟩) ∧
    (∀ a b : ℚ, ∀ pv : List ℚ, ∀ now : ℚ, ∀ td : String,
      t3 + limits.cooldownAfterLossesMs ≤ now →
      (canOpenPosition limits (recordTradeResult limits (recordTradeResult limits
        (recordTradeResult limits m0 ⟨.sell, some p1⟩ t1 today) ⟨.sell, some p2⟩ t2 today)
        ⟨.sell, some p3⟩ t3 today) a b pv now td).1.reason ≠ .inCooldown) ∧
    (clearCooldown (recordTradeResult limits (recordTradeResult limits (recordTradeResult limits
        m0 ⟨.sell, some p1⟩ t1 today) ⟨.sell, some p2⟩ t2 today)
        ⟨.sell, some p3⟩ t3 today)).state.cooldownUntil = none := by
  have h1 := recordTradeResult_loss limits m0 p1 t1 today hp1 hd
  have hd1 : today = (recordTradeResult limits m0 ⟨.sell, some p1⟩ t1 today).dailyResetDate := by
    rw [h1, hd]
  have h2 := recordTradeResult_loss limits (recordTradeResult limits m0 ⟨.sell, some p1⟩ t1 today)
    p2 t2 today hp2 hd1
  have hd2 : today = (recordTradeResult limits (recordTradeResult limits m0 ⟨.sell, some p1⟩ t1
      today) ⟨.sell, some p2⟩ t2 today).dailyResetDate := by
    rw [h2, h1, hd]
  have h3 := recordTradeResult_loss limits (recordTradeResult limits (recordTradeResult limits m0
    ⟨.sell, some p1⟩ t1 today) ⟨.sell, some p2⟩ t2 today) p3 t3 today hp3 hd2
  have hcu : (recordTradeResult limits (recordTradeResult limits (recordTradeResult limits m0
      ⟨.sell, some p1⟩ t1 today) ⟨.sell, some p2⟩ t2 today)
      ⟨.sell, some p3⟩ t3 today).state.cooldownUntil =
      some (t3 + limits.cooldownAfterLossesMs) := by
    rw [h3, h2, h1]
    simp [hl0, hmax]
  refine ⟨hcu, ?_, ?_, ?_⟩
  · intro a b pv now td hnow
    simp only [canOpenPosition, checkDailyReset_cooldown, hcu, beforeDeadline]
    simp [hnow]
  · intro a b pv now td hnow
    simp only [canOpenPosition, checkDailyReset_cooldown, hcu, beforeDeadline]
    rw [if_neg (by simp [not_lt.mpr hnow])]
    split
    · simp
    · split
      · simp
      · split
        · simp
        · split
          · simp
          · split
            · simp
            · split <;> simp
  · simp [clearCooldown]

def c8mgr : RiskMgr :=
  { state := { dailyPnL := 0, peakBalance := 20, currentDrawdown := 0, consecutiveLosses := 0,
               lastTradeTimestamp := none, cooldownUntil := none, totalExposure := 0 },
    dailyResetDate := "2025-01-01" }

theorem cooldown_lifecycle_witness :
    (recordTradeResult (defaultRiskLimits 20) (recordTradeResult (defaultRiskLimits 20)
        (recordTradeResult (defaultRiskLimits 20) c8mgr ⟨.sell, some (-1)⟩ 0 "2025-01-01")
        ⟨.sell, some (-1)⟩ 60000 "2025-01-01")
        ⟨.sell, some (-1)⟩ 120000 "2025-01-01").state.cooldownUntil =
      some (120000 + (defaultRiskLimits 20).cooldownAfterLossesMs) ∧
    (canOpenPosition (defaultRiskLimits 20) (recordTradeResult (defaultRiskLimits 20)
        (recordTradeResult (defaultRiskLimits 20) (recordTradeResult (defaultRiskLimits 20) c8mgr
        ⟨.sell, some (-1)⟩ 0 "2025-01-01") ⟨.sell, some (-1)⟩ 60000 "2025-01-01")
        ⟨.sell, some (-1)⟩ 120000 "2025-01-01") 1 20 [] 200000 "2025-01-01").1 =
      ⟨false, .blocked, .inCooldown⟩ ∧
    (canOpenPosition (defaultRiskLimits 20) (recordTradeResult (defaultRiskLimits 20)
        (recordTradeResult (defaultRiskLimits 20) (recordTradeResult (defaultRiskLimits 20) c8mgr
        ⟨.sell, some (-1)⟩ 0 "2025-01-01") ⟨.sell, some (-1)⟩ 60000 "2025-01-01")
        ⟨.sell, some (-1)⟩ 120000 "2025-01-01") 1 20 [] 2000000 "2025-01-01").1.reason ≠
      .inCooldown ∧
    (clearCooldown (recordTradeResult (defaultRiskLimits 20) (recordTradeResult
        (defaultRiskLimits 20) (recordTradeResult (defaultRiskLimits 20) c8mgr
        ⟨.sell, some (-1)⟩ 0 "2025-01-01") ⟨.sell, some (-1)⟩ 60000 "2025-01-01")
        ⟨.sell, some (-1)⟩ 120000 "2025-01-01")).state.cooldownUntil = none :=
  ⟨(cooldown_lifecycle (defaultRiskLimits 20) c8mgr (-1) (-1) (-1) 0 60000 120000 "2025-01-01"
      rfl rfl rfl (by norm_num) (by norm_num) (by norm_num)).1,
   (cooldown_lifecycle (defaultRiskLimits 20) c8mgr (-1) (-1) (-1) 0 60000 120000 "2025-01-01"
      rfl rfl rfl (by norm_num) (by norm_num) (by norm_num)).2.1 1 20 [] 200000 "2025-01-01"
      (by norm_num [defaultRiskLimits]),
   (cooldown_lifecycle (defaultRiskLimits 20) c8mgr (-1) (-1) (-1) 0 60000 120000 "2025-01-01"
      rfl rfl rfl (by norm_num) (by norm_num) (by norm_num)).2.2.1 1 20 [] 2000000 "2025-01-01"
      (by norm_num [defaultRiskLimits]),
   (cooldown_lifecycle (defaultRiskLimits 20) c8mgr (-1) (-1) (-1) 0 60000 120000 "2025-01-01"
      rfl rfl rfl (by norm_num) (by norm_num) (by norm_num)).2.2.2⟩

def c6mgr : RiskMgr :=
  { state := { dailyPnL := 0, peakBalance := 20, currentDrawdown := 0, consecutiveLosses := 0,
               lastTradeTimestamp := some 0, cooldownUntil := none, totalExposure := 0 },
    dailyResetDate := "2025-01-01" }

/-- Claim C6 (counterexample): with every earlier gate passing and the last trade 30s
ago against a 60s minimum spacing, `canOpenPosition` returns
`canTrade = false` (severity warning): the rate-limit branch blocks the trade
rather than allowing it with a warning as the claim states. -/
theorem canOpen_rateLimit_counterexample :
    (canOpenPosition (defaultRiskLimits 20) c6mgr 1 20 [] 30000 "2025-01-01").1 =
      ⟨false, .warning, .rateLimited⟩ ∧
    (canOpenPosition (defaultRiskLimits 20) c6mgr 1 20 [] 30000 "2025-01-01").1.canTrade =
      false := by
  constructor
  · norm_num [canOpenPosition, checkDailyReset, c6mgr, defaultRiskLimits, calculateDrawdown,
      beforeDeadline, rateLimitedCheck]
  · norm_num [canOpenPosition, checkDailyReset, c6mgr, defaultRiskLimits, calculateDrawdown,
      beforeDeadline, rateLimitedCheck]

/-- Claim C6 (amended): when every earlier gate passes but the minimum inter-trade
spacing has not yet elapsed, the result carries severity warning but
`canTrade` is false — the rate limit does block the trade until the spacing
elapses. -/
theorem canOpen_rateLimit_warning (limits : RiskLimits) (m : RiskMgr)
    (solAmount currentBalance : ℚ) (positionValues : List ℚ) (now : ℚ) (today : String)
    (hcd : beforeDeadline (checkDailyReset m today).state.cooldownUntil now = false)
    (hdl : ¬ (checkDailyReset m today).state.dailyPnL ≤ -limits.maxDailyLossSol)
    (hdd : ¬ limits.maxDrawdownPercent ≤
      calculateDrawdown (checkDailyReset m today).state currentBalance)
    (hex : ¬ limits.maxExposurePercent ≤ positionValues.sum / currentBalance * 100)
    (hsz : ¬ limits.maxSinglePositionPercent < solAmount / currentBalance * 100)
    (hrl : rateLimitedCheck (checkDailyReset m today).state.lastTradeTimestamp now
      limits.minTimeBetweenTradesMs = true) :
    (canOpenPosition limits m solAmount currentBalance positionValues now today).1 =
      ⟨false, .warning, .rateLimited⟩ := by
  simp only [canOpenPosition, hcd, hrl, Bool.false_eq_true, if_false, if_neg hdl, if_neg hdd,
    if_neg hex, if_neg hsz, if_true]

theorem canOpen_rateLimit_warning_witness :
    (canOpenPosition (defaultRiskLimits 20) c6mgr 1 20 [] 30000 "2025-01-01").1 =
      ⟨false, .warning, .rateLimited⟩ :=
  canOpen_rateLimit_warning (defaultRiskLimits 20) c6mgr 1 20 [] 30000 "2025-01-01"
    (by norm_num [beforeDeadline, checkDailyReset, c6mgr])
    (by norm_num [checkDailyReset, c6mgr, defaultRiskLimits])
    (by norm_num [checkDailyReset, c6mgr, defaultRiskLimits, calculateDrawdown])
    (by norm_num [defaultRiskLimits])
    (by norm_num [defaultRiskLimits])
    (by norm_num [rateLimitedCheck, checkDailyReset, c6mgr, defaultRiskLimits])

def c7state : RiskState :=
  { dailyPnL := 0, peakBalance := 20, currentDrawdown := 0, consecutiveLosses := 0,
    lastTradeTimestamp := none, cooldownUntil := none, totalExposure := 0 }

/-- Claim C7 (counterexample): with balance 0.01 SOL the per-position ceiling is
`0.01 * 20% = 0.002` SOL, yet `calculatePositionSize` returns the floor 0.01
SOL because the floor is applied after the cap — the result exceeds
`maxSinglePositionPercent` of the balance. -/
theorem calculatePositionSize_counterexample :
    calculatePositionSize (defaultRiskLimits 20) c7state 1 (1/100) 100 = 1/100 ∧
    ¬ calculatePositionSize (defaultRiskLimits 20) c7state 1 (1/100) 100 ≤
      (1/100) * ((defaultRiskLimits 20).maxSinglePositionPercent / 100) := by
  constructor
  · norm_num [calculatePositionSize, c7state, defaultRiskLimits]
  · norm_num [calculatePositionSize, c7state, defaultRiskLimits]

/-- Claim C7 (amended): the size is the claimed product
`base * confidenceMultiplier * lossStreakMultiplier * drawdownMultiplier`
clamped by taking the minimum with the per-position ceiling and then the
maximum with the 0.01 floor; the result is never below the floor, and it
respects the ceiling whenever the ceiling is at least the floor (when the
ceiling is below 0.01 the floor wins and exceeds it). -/
theorem calculatePositionSize_formula (limits : RiskLimits) (s : RiskState)
    (baseAmount currentBalance confidence : ℚ)
    (hc0 : 0 ≤ confidence) (hc1 : confidence ≤ 100) :
    calculatePositionSize limits s baseAmount currentBalance confidence =
      max (min (baseAmount * (1/2 + confidence / 100 * (1/2))
          * max (3/10) (1 - (s.consecutiveLosses : ℚ) * (2/10))
          * (if 10 < s.currentDrawdown then max (1/2) (1 - s.currentDrawdown / 100) else 1))
        (currentBalance * (limits.maxSinglePositionPercent / 100))) (1/100) ∧
    1/100 ≤ calculatePositionSize limits s baseAmount currentBalance confidence ∧
    (1/100 ≤ currentBalance * (limits.maxSinglePositionPercent / 100) →
      calculatePositionSize limits s baseAmount currentBalance confidence ≤
        currentBalance * (limits.maxSinglePositionPercent / 100)) := by
  have hform : calculatePositionSize limits s baseAmount currentBalance confidence =
      max (min (baseAmount * (1/2 + confidence / 100 * (1/2))
          * max (3/10) (1 - (s.consecutiveLosses : ℚ) * (2/10))
          * (if 10 < s.currentDrawdown then max (1/2) (1 - s.currentDrawdown / 100) else 1))
        (currentBalance * (limits.maxSinglePositionPercent / 100))) (1/100) := by
    simp only [calculatePositionSize]
    have hm : max ((3:ℚ)/10) (1 - ((0:ℕ) : ℚ) * (2/10)) = 1 := by norm_num
    rcases Nat.eq_zero_or_pos s.consecutiveLosses with h0 | h0
    · rw [h0, if_neg (lt_irrefl 0), hm, mul_one]
      by_cases hdd : 10 < s.currentDrawdown
      · rw [if_pos hdd, if_pos hdd]
      · rw [if_neg hdd, if_neg hdd, mul_one]
    · rw [if_pos h0]
      by_cases hdd : 10 < s.currentDrawdown
      · rw [if_pos hdd, if_pos hdd]
      · rw [if_neg hdd, if_neg hdd, mul_one]
  refine ⟨hform, ?_, ?_⟩
  · rw [hform]
    exact le_max_right _ _
  · intro hcap
    rw [hform]
    exact max_le (min_le_right _ _) hcap

theorem calculatePositionSize_formula_witness :
    calculatePositionSize (defaultRiskLimits 20) c7state 1 20 80 =
      max (min (1 * (1/2 + (80 : ℚ) / 100 * (1/2))
          * max (3/10) (1 - ((c7state.consecutiveLosses : ℚ)) * (2/10))
          * (if 10 < c7state.currentDrawdown then max (1/2) (1 - c7state.currentDrawdown / 100)
             else 1))
        (20 * ((defaultRiskLimits 20).maxSinglePositionPercent / 100))) (1/100) ∧
    1/100 ≤ calculatePositionSize (defaultRiskLimits 20) c7state 1 20 80 ∧
    calculatePositionSize (defaultRiskLimits 20) c7state 1 20 80 ≤
      20 * ((defaultRiskLimits 20).maxSinglePositionPercent / 100) :=
  ⟨(calculatePositionSize_formula (defaultRiskLimits 20) c7state 1 20 80 (by norm_num)
      (by norm_num)).1,
   (calculatePositionSize_formula (defaultRiskLimits 20) c7state 1 20 80 (by norm_num)
      (by norm_num)).2.1,
   (calculatePositionSize_formula (defaultRiskLimits 20) c7state 1 20 80 (by norm_num)
      (by norm_num)).2.2 (by norm_num [defaultRiskLimits])⟩

def c10mgr : RiskMgr :=
  { state := { dailyPnL := -1, peakBalance := 20, currentDrawdown := 0, consecutiveLosses := 1,
               lastTradeTimestamp := none, cooldownUntil := none, totalExposure := 0 },
    dailyResetDate := "2025-01-01" }

/-- Claim C10 (counterexample): a buy recorded on a new UTC day does not leave
`dailyPnL` unchanged — `checkDailyReset` runs first and zeroes it. -/
theorem recordTrade_nonSell_counterexample :
    (recordTradeResult (defaultRiskLimits 20) c10mgr ⟨.buy, none⟩ 5
      "2025-01-02").state.dailyPnL = 0 ∧
    c10mgr.state.dailyPnL = -1 := by
  constructor
  · simp only [recordTradeResult, checkDailyReset]
    rw [if_pos (by decide)]
  · rfl

/-- For a trade that is not a sell, or a sell without a recorded profit, only
the daily-reset check and the `lastTradeTimestamp` update run. -/
theorem recordTradeResult_nonSell (limits : RiskLimits) (m : RiskMgr) (tr : Trade) (now : ℚ)
    (today : String) (htr : tr.type ≠ .sell ∨ tr.profit = none) :
    recordTradeResult limits m tr now today =
      { state := { (checkDailyReset m today).state with lastTradeTimestamp := some now },
        dailyResetDate := (checkDailyReset m today).dailyResetDate } := by
  rcases tr with ⟨ty, pr⟩
  cases ty <;> cases pr <;> try rfl
  simp at htr

/-- Claim C10 (amended): a sell with profit exactly 0 resets `consecutiveLosses` to 0
and leaves the cooldown untouched; a non-sell trade, or a sell with undefined
profit, leaves `consecutiveLosses` and `cooldownUntil` unchanged, updates
`lastTradeTimestamp`, and leaves `dailyPnL` unchanged provided no UTC day
change is detected (on a new day `checkDailyReset` zeroes it first). -/
theorem recordTrade_zeroProfit_and_nonSell (limits : RiskLimits) (m : RiskMgr) (now : ℚ)
    (today : String) :
    ((recordTradeResult limits m ⟨.sell, some 0⟩ now today).state.consecutiveLosses = 0 ∧
     (recordTradeResult limits m ⟨.sell, some 0⟩ now today).state.cooldownUntil =
       m.state.cooldownUntil) ∧
    (∀ tr : Trade, tr.type ≠ .sell ∨ tr.profit = none →
      (recordTradeResult limits m tr now today).state.consecutiveLosses =
        m.state.consecutiveLosses ∧
      (recordTradeResult limits m tr now today).state.cooldownUntil = m.state.cooldownUntil ∧
      (recordTradeResult limits m tr now today).state.lastTradeTimestamp = some now ∧
      (today = m.dailyResetDate →
        (recordTradeResult limits m tr now today).state.dailyPnL = m.state.dailyPnL)) := by
  constructor
  · constructor
    · simp only [recordTradeResult]
      rw [if_neg (by norm_num)]
    · simp only [recordTradeResult]
      rw [if_neg (by norm_num)]
      exact checkDailyReset_cooldown m today
  · intro tr htr
    rw [recordTradeResult_nonSell limits m tr now today htr]
    refine ⟨checkDailyReset_losses m today, checkDailyReset_cooldown m today, rfl, ?_⟩
    intro hd
    rw [checkDailyReset_of_sameDay m today hd]

theorem recordTrade_zeroProfit_and_nonSell_witness :
    ((recordTradeResult (defaultRiskLimits 20) c6mgr ⟨.sell, some 0⟩ 5
        "2025-01-01").state.consecutiveLosses = 0 ∧
     (recordTradeResult (defaultRiskLimits 20) c6mgr ⟨.sell, some 0⟩ 5
        "2025-01-01").state.cooldownUntil = c6mgr.state.cooldownUntil) ∧
    ((recordTradeResult (defaultRiskLimits 20) c6mgr ⟨.buy, none⟩ 5
        "2025-01-01").state.consecutiveLosses = c6mgr.state.consecutiveLosses ∧
     (recordTradeResult (defaultRiskLimits 20) c6mgr ⟨.buy, none⟩ 5
        "2025-01-01").state.cooldownUntil = c6mgr.state.cooldownUntil ∧
     (recordTradeResult (defaultRiskLimits 20) c6mgr ⟨.buy, none⟩ 5
        "2025-01-01").state.lastTradeTimestamp = some 5 ∧
     (recordTradeResult (defaultRiskLimits 20) c6mgr ⟨.buy, none⟩ 5
        "2025-01-01").state.dailyPnL = c6mgr.state.dailyPnL) :=
  ⟨(recordTrade_zeroProfit_and_nonSell (defaultRiskLimits 20) c6mgr 5 "2025-01-01").1,
   by
    obtain ⟨ha, hb, hc, hdp⟩ := (recordTrade_zeroProfit_and_nonSell (defaultRiskLimits 20) c6mgr
      5 "2025-01-01").2 ⟨.buy, none⟩ (Or.inl (by decide))
    exact ⟨ha, hb, hc, hdp rfl⟩⟩

/-! ### Persistence round-trip (storage.ts, RiskManager.loadState/saveState,
PositionManager.loadPositions) -/

/-- `RiskManager.loadState` as implemented: it ignores storage entirely and
returns the default in-memory state for the configured initial capital
(`saveState` is likewise a no-op), so no saved risk state influences it. -/
def riskLoadState (initialCapitalSol : ℚ) : RiskState :=
  { dailyPnL := 0, peakBalance := initialCapitalSol, currentDrawdown := 0,
    consecutiveLosses := 0, lastTradeTimestamp := none, cooldownUntil := none,
    totalExposure := 0 }

/-- The persisted `Position` shape from storage.ts (identifier strings
omitted): only entry data is stored, none of the enhancement fields. -/
structure StoredPosition where
  entryPrice : ℚ
  amount : ℚ
  entryTimestamp : ℚ
  entrySolValue : ℚ
deriving DecidableEq

/-- Projection of an in-memory enhanced position onto the persisted shape. -/
def storePosition (p : EnhancedPosition) : StoredPosition :=
  { entryPrice := p.entryPrice, amount := p.amount, entryTimestamp := p.entryTimestamp,
    entrySolValue := p.entrySolValue }

/-- `PositionManager.loadPositions` on one stored position: re-enhance it with
the default tracking fields (fresh high/low at the entry price, no trailing
stop, partial-take flag cleared). -/
def enhanceStoredPosition (p : StoredPosition) : EnhancedPosition :=
  { entryPrice := p.entryPrice, amount := p.amount, entrySolValue := p.entrySolValue,
    entryTimestamp := p.entryTimestamp, highestPrice := p.entryPrice,
    lowestPrice := p.entryPrice, trailingStopPrice := none, partialTakeDone := false,
    checkCount := 0, status := .active }

def c4pos : EnhancedPosition :=
  { entryPrice := 1, amount := 100, entrySolValue := 1, entryTimestamp := 0,
    highestPrice := 8/5, lowestPrice := 1, trailingStopPrice := some (34/25),
    partialTakeDone := true, checkCount := 9, status := .trailing }

/-- Claim C4: the save/load round-trip does not preserve protective state. A
position whose trailing stop is 1.36, high-water mark 1.60 and partial-take
flag set comes back with no trailing stop, a reset high-water mark and a
cleared flag, and its evaluation at price 1.00 flips from a full-sell
(trailing stop hit) to hold; the reloaded risk state is the constant default,
with zero consecutive losses and no cooldown, regardless of what was saved. -/
theorem persistence_roundtrip_not_identity :
    (enhanceStoredPosition (storePosition c4pos)).trailingStopPrice = none ∧
    (enhanceStoredPosition (storePosition c4pos)).highestPrice = 1 ∧
    (enhanceStoredPosition (storePosition c4pos)).partialTakeDone = false ∧
    c4pos.trailingStopPrice = some (34/25) ∧
    c4pos.partialTakeDone = true ∧
    (evaluatePosition defaultPositionConfig c4pos 1 3600000).1.type = .fullSell ∧
    (evaluatePosition defaultPositionConfig (enhanceStoredPosition (storePosition c4pos))
      1 3600000).1.type = .hold ∧
    (riskLoadState 20).consecutiveLosses = 0 ∧
    (riskLoadState 20).cooldownUntil = none := by
  refine ⟨rfl, rfl, rfl, rfl, rfl, ?_, ?_, rfl, rfl⟩
  · norm_num [evaluatePosition, defaultPositionConfig, c4pos, trailingStopHitCheck]
  · norm_num [evaluatePosition, defaultPositionConfig, c4pos, trailingStopHitCheck,
      enhanceStoredPosition, storePosition]

/-! ### Survival manager (src/bot/src/core/survivalManager.ts) -/

inductive SurvivalStatus
  | healthy
  | low
  | critical
  | emergency
deriving DecidableEq

structure SurvivalState where
  tokenLaunched : Bool
  tokenMint : Option String
  tokenBalance : ℚ
  tokenValueSOL : ℚ
  capitalSOL : ℚ
  minCapitalSOL : ℚ
  criticalCapitalSOL : ℚ
  totalTokenBought : ℚ
  totalTokenSold : ℚ
  survivalSellCount : ℕ
  status : SurvivalStatus
  lastChecked : ℚ
deriving DecidableEq

/-- JavaScript truthiness of the nullable `tokenMint` string: `null` and the
empty string are falsy. -/
def mintTruthy : Option String → Bool
  | none => false
  | some mint => decide (mint ≠ "")

def determineStatus (s : SurvivalState) (capitalSOL : ℚ) : SurvivalStatus :=
  if s.minCapitalSOL * 2 ≤ capitalSOL then .healthy
  else if s.minCapitalSOL ≤ capitalSOL then .low
  else if s.criticalCapitalSOL ≤ capitalSOL then .critical
  else .emergency

inductive SurvivalAction
  | noAction
  | buyToken
  | sellTokenPartial
  | sellTokenEmergency
deriving DecidableEq

structure SurvivalDecision where
  action : SurvivalAction
  amount : ℚ
deriving DecidableEq

/-- `SurvivalManager.makeSurvivalDecision` (the capital argument only feeds
the human-readable reason string, which is omitted); the sell fractions are
the EMERGENCY_SELL_PERCENT = 20 and PARTIAL_SELL_PERCENT = 10 constants. -/
def makeSurvivalDecision (s : SurvivalState) : SurvivalDecision :=
  if s.status = .emergency ∧ 0 < s.tokenBalance then ⟨.sellTokenEmergency, 20⟩
  else if s.status = .critical ∧ 0 < s.tokenBalance then ⟨.sellTokenPartial, 10⟩
  else if s.status = .low then ⟨.noAction, 0⟩
  else ⟨.noAction, 0⟩

/-- `SurvivalManager.checkSurvival`: refresh capital, token balance/value and
the status, then make (only) a recommendation. The wallet balance and the
refreshed token holdings are external inputs. -/
def checkSurvival (s : SurvivalState) (balance newTokenBalance newTokenValue now : ℚ) :
    SurvivalDecision × SurvivalState :=
  let s1 := { s with capitalSOL := balance, tokenBalance := newTokenBalance,
                     tokenValueSOL := newTokenValue, lastChecked := now }
  let s2 := { s1 with status := determineStatus s1 balance }
  (makeSurvivalDecision s2, s2)

/-- `SurvivalManager.sellForSurvival`: after the precondition checks, the
survival-sell counter is incremented before the sell is attempted; on success
the sold amount accrues to `totalTokenSold` and the holdings are refreshed
(external inputs); on failure the method returns false with the counter
already incremented. -/
def sellForSurvival (s : SurvivalState) (percent : ℚ) (sellSucceeds : Bool)
    (newTokenBalance newTokenValue : ℚ) : Bool × SurvivalState :=
  if !(s.tokenLaunched && mintTruthy s.tokenMint) then (false, s)
  else if s.tokenBalance = 0 then (false, s)
  else
    let s1 := { s with survivalSellCount := s.survivalSellCount + 1 }
    if sellSucceeds then
      let soldAmount := s1.tokenBalance * (percent / 100)
      (true, { s1 with totalTokenSold := s1.totalTokenSold + soldAmount,
                       tokenBalance := newTokenBalance, tokenValueSOL := newTokenValue })
    else (false, s1)

def c5state : SurvivalState :=
  { tokenLaunched := true, tokenMint := some "MINT", tokenBalance := 100,
    tokenValueSOL := 1, capitalSOL := 1, minCapitalSOL := 5, criticalCapitalSOL := 2,
    totalTokenBought := 10, totalTokenSold := 0, survivalSellCount := 0,
    status := .critical, lastChecked := 0 }

def c5drained : SurvivalState :=
  { c5state with tokenBalance := 0 }

/-- Claim C5 (counterexample): a survival sell whose execution fails (preconditions
satisfied, venue reports failure) still leaves the counter incremented from 0
to 1 — the increment happens before the outcome is known and is not rolled
back, contradicting the claim that the state is unchanged on error. -/
theorem survivalSellCount_counterexample :
    (sellForSurvival c5state 10 false 100 1).1 = false ∧
    (sellForSurvival c5state 10 false 100 1).2.survivalSellCount = 1 ∧
    c5state.survivalSellCount = 0 := by
  refine ⟨?_, ?_, rfl⟩ <;>
  · norm_num [sellForSurvival, c5state, mintTruthy]
    rw [if_neg (by decide)]

/-- Claim C5 (amended): the survival-sell counter increments by exactly 1 on every
sell attempt that passes the preconditions (token launched, truthy mint,
nonzero balance) regardless of the sell outcome — failures included, where it
is not rolled back; it never changes on a mere `checkSurvival`
recommendation, and never changes when a precondition fails. -/
theorem survivalSellCount_behavior (s : SurvivalState) (percent : ℚ) (ok : Bool)
    (newTokenBalance newTokenValue : ℚ) :
    (∀ balance tb tv now : ℚ,
      (checkSurvival s balance tb tv now).2.survivalSellCount = s.survivalSellCount) ∧
    ((s.tokenLaunched && mintTruthy s.tokenMint) = true → s.tokenBalance ≠ 0 →
      (sellForSurvival s percent ok newTokenBalance newTokenValue).2.survivalSellCount =
        s.survivalSellCount + 1) ∧
    ((s.tokenLaunched && mintTruthy s.tokenMint) = false ∨ s.tokenBalance = 0 →
      (sellForSurvival s percent ok newTokenBalance newTokenValue).2.survivalSellCount =
        s.survivalSellCount) := by
  refine ⟨fun balance tb tv now => rfl, ?_, ?_⟩
  · intro hpre htb
    simp only [sellForSurvival, hpre, Bool.not_true, Bool.false_eq_true, if_false,
      if_neg htb]
    split <;> rfl
  · intro h
    rcases h with h | h
    · simp only [sellForSurvival, h, Bool.not_false, if_true]
    · by_cases hl : (s.tokenLaunched && mintTruthy s.tokenMint) = true
      · simp only [sellForSurvival, hl, Bool.not_true, Bool.false_eq_true, if_false,
          if_pos h]
      · simp only [sellForSurvival, Bool.not_eq_true] at hl ⊢
        simp only [hl, Bool.not_false, if_true]

theorem survivalSellCount_behavior_witness :
    (checkSurvival c5state 1 100 1 7).2.survivalSellCount = c5state.survivalSellCount ∧
    (sellForSurvival c5state 10 false 100 1).2.survivalSellCount =
      c5state.survivalSellCount + 1 ∧
    (sellForSurvival c5drained 10 true 100 1).2.survivalSellCount =
      c5drained.survivalSellCount :=
  ⟨(survivalSellCount_behavior c5state 10 false 100 1).1 1 100 1 7,
   (survivalSellCount_behavior c5state 10 false 100 1).2.1 (by decide)
     (by norm_num [c5state]),
   (survivalSellCount_behavior c5drained 10 true 100 1).2.2 (Or.inr rfl)⟩

/-! ### Price stream reconnection (PriceStreamService) -/

structure StreamState where
  hasApiKey : Bool
  isConnected : Bool
  reconnectAttempts : ℕ
  maxReconnectAttempts : ℕ
  reconnectDelay : ℚ
deriving DecidableEq

/-- Fresh service state: not connected, zero attempts, cap 5, base delay
5000 ms. -/
def initialStreamState (hasApiKey : Bool) : StreamState :=
  { hasApiKey := hasApiKey, isConnected := false, reconnectAttempts := 0,
    maxReconnectAttempts := 5, reconnectDelay := 5000 }

inductive StreamEvent
  | connected
  | reconnectFailed
deriving DecidableEq

/-- `PriceStreamService.scheduleReconnect`: at or past the cap, emit the
terminal event and schedule nothing; otherwise increment the attempt counter
and schedule a `connect` retry after `reconnectDelay * attemptNumber`.
Returns the new state, the scheduled retry delay (if any) and the emitted
events. -/
def scheduleReconnect (s : StreamState) : StreamState × Option ℚ × List StreamEvent :=
  if s.maxReconnectAttempts ≤ s.reconnectAttempts then
    (s, none, [.reconnectFailed])
  else
    let n := s.reconnectAttempts + 1
    ({ s with reconnectAttempts := n }, some (s.reconnectDelay * (n : ℚ)), [])

structure ConnectResult where
  returned : Bool
  state : StreamState
  scheduledRetryDelay : Option ℚ
  events : List StreamEvent
deriving DecidableEq

/-- `PriceStreamService.connect` with the transport outcome as an oracle: an
established connection returns early, a missing API key returns false,
success marks connected and resets the attempt counter, and failure goes
through `scheduleReconnect`. -/
def connect (s : StreamState) (connectOk : Bool) : ConnectResult :=
  if s.isConnected then ⟨true, s, none, []⟩
  else if !s.hasApiKey then ⟨false, s, none, []⟩
  else if connectOk then
    ⟨true, { s with isConnected := true, reconnectAttempts := 0 }, none, [.connected]⟩
  else
    let r := scheduleReconnect s
    ⟨false, r.1, r.2.1, r.2.2⟩

/-- Any sequence of `connect` invocations (scheduled retries and caller
re-invocations alike), folded over their transport outcomes. -/
def runStream (s : StreamState) : List Bool → StreamState
  | [] => s
  | ok :: rest => runStream (connect s ok).state rest

theorem connect_preserves (s : StreamState) (ok : Bool) :
    (connect s ok).state.maxReconnectAttempts = s.maxReconnectAttempts ∧
    (s.reconnectAttempts ≤ s.maxReconnectAttempts →
      (connect s ok).state.reconnectAttempts ≤ s.maxReconnectAttempts) := by
  constructor
  · simp only [connect, scheduleReconnect]
    repeat first
    | rfl
    | split
  · intro h
    simp only [connect, scheduleReconnect]
    split
    · exact h
    · split
      · exact h
      · split
        · simp
        · split
          · exact h
          · rename_i hlt
            simp only []
            omega

theorem runStream_bounded (s : StreamState) (oks : List Bool)
    (h : s.reconnectAttempts ≤ s.maxReconnectAttempts) :
    (runStream s oks).reconnectAttempts ≤ s.maxReconnectAttempts := by
  induction oks generalizing s with
  | nil => exact h
  | cons ok rest ih =>
    have hmax := (connect_preserves s ok).1
    have hatt := (connect_preserves s ok).2 h
    have hrec := ih (connect s ok).state (by rw [hmax]; exact hatt)
    rw [hmax] at hrec
    simpa [runStream] using hrec

/-- Claim C9: the attempt counter never exceeds the configured maximum over any
sequence of connect attempts; at the cap `scheduleReconnect` emits the
terminal reconnect-failed event and schedules no retry (only a fresh caller
`connect` can resume); below the cap it schedules a retry after
`baseDelay * attemptNumber`; and a successful connect resets the counter
to 0. -/
theorem reconnect_policy (s : StreamState) (oks : List Bool) (ok : Bool) :
    (s.reconnectAttempts ≤ s.maxReconnectAttempts →
      (runStream s oks).reconnectAttempts ≤ s.maxReconnectAttempts) ∧
    (s.maxReconnectAttempts ≤ s.reconnectAttempts →
      scheduleReconnect s = (s, none, [.reconnectFailed])) ∧
    (s.reconnectAttempts < s.maxReconnectAttempts →
      scheduleReconnect s = ({ s with reconnectAttempts := s.reconnectAttempts + 1 },
        some (s.reconnectDelay * ((s.reconnectAttempts + 1 : ℕ) : ℚ)), [])) ∧
    (s.isConnected = false → s.hasApiKey = true → ok = true →
      (connect s ok).state.reconnectAttempts = 0) := by
  refine ⟨fun h => runStream_bounded s oks h, ?_, ?_, ?_⟩
  · intro h
    simp only [scheduleReconnect, if_pos h]
  · intro h
    simp only [scheduleReconnect, if_neg (not_le.mpr h)]
  · intro hconn hkey hok
    simp only [connect, hconn, hkey, hok, Bool.not_true, Bool.false_eq_true, if_false,
      if_true]

theorem reconnect_policy_witness :
    (runStream (initialStreamState true)
      [false, false, false, false, false, false, false]).reconnectAttempts ≤
      (initialStreamState true).maxReconnectAttempts ∧
    scheduleReconnect { initialStreamState true with reconnectAttempts := 5 } =
      ({ initialStreamState true with reconnectAttempts := 5 }, none, [.reconnectFailed]) ∧
    scheduleReconnect (initialStreamState true) =
      ({ initialStreamState true with
          reconnectAttempts := (initialStreamState true).reconnectAttempts + 1 },
        some ((initialStreamState true).reconnectDelay *
          (((initialStreamState true).reconnectAttempts + 1 : ℕ) : ℚ)), []) ∧
    (connect { initialStreamState true with reconnectAttempts := 2 }
      true).state.reconnectAttempts = 0 :=
  ⟨(reconnect_policy (initialStreamState true)
      [false, false, false, false, false, false, false] true).1 (by decide),
   (reconnect_policy { initialStreamState true with reconnectAttempts := 5 } [] true).2.1
     (by decide),
   (reconnect_policy (initialStreamState true) [] true).2.2.1 (by decide),
   (reconnect_policy { initialStreamState true with reconnectAttempts := 2 } [] true).2.2.2
     rfl rfl rfl⟩

end Survive
